import Mathlib

/-!
Verification development for the jobly REST API (companies, jobs, users, auth).

The JavaScript sources are embedded shallowly: plain functions become Lean
functions, JavaScript objects become structures or association lists (whose
list order models the insertion order of object keys), thrown errors become
`Except`/explicit error values, and the Express request pipeline becomes
explicit step values (`respond` for a direct `res.json`, `nextErr` for
`next(err)`).
-/

set_option autoImplicit false

namespace Jobly

/-! ## JavaScript-semantics helpers -/

/-- Property lookup `m[k]` on an object modelled as an association list:
the first binding of `k` wins, absent keys give `undefined` (`none`). -/
def jsLookup (m : List (String × String)) (k : String) : Option String :=
  (m.find? (fun p => p.1 = k)).map Prod.snd

/-- The JavaScript expression `a || b` where `a` is a string property that may
be `undefined`: `b` is used when `a` is absent or falsy, and the only falsy
string is the empty string. -/
def jsOrString (a : Option String) (b : String) : String :=
  match a with
  | some s => if s = "" then b else s
  | none => b

/-- The JavaScript expression `a || b` on an optional numeric status:
`b` is used when `a` is absent or `0` (the falsy number relevant here). -/
def jsOrNat (a : Option Nat) (b : Nat) : Nat :=
  match a with
  | some n => if n = 0 then b else n
  | none => b

/-! ## Errors (`expressError.js`)

`expressError.js` itself is not under `src/`; only its requirers are. -/

/-- An error `message`: either a plain string or the array of schema
validation error strings that `BadRequestError` receives in the routes. -/
inductive ErrMsg where
  | str (s : String)
  | list (l : List String)
deriving DecidableEq

/-- Modelled from the spec: the error classes of the missing `expressError.js`
(`BadRequestError`, `UnauthorizedError`, `NotFoundError`, plus a status-less
generic error), with the statuses the spec assigns: "Validation failures
produce 400 ...; authorization failures produce 401/403; missing resources
produce 404; uncaught errors produce 500". -/
inductive JError where
  | badRequest (m : ErrMsg)
  | unauthorized
  | notFound
  | generic (m : String)
deriving DecidableEq

/-- The `status` property the centralized handler reads from an error;
a generic uncaught error carries no status of its own. -/
def JError.status : JError → Option Nat
  | .badRequest _ => some 400
  | .unauthorized => some 401
  | .notFound => some 404
  | .generic _ => none

/-- The `message` property of an error. -/
def JError.message : JError → ErrMsg
  | .badRequest m => m
  | .unauthorized => .str "Unauthorized"
  | .notFound => .str "Not Found"
  | .generic m => .str m

/-! ## `helpers/sql.js`: `sqlForPartialUpdate` -/

/-- The return value of `sqlForPartialUpdate`: `setCols` for the SQL column
assignments and the `values` array for SQL parameters. -/
structure SqlUpdateResult (V : Type) where
  setCols : String
  values : List V
deriving DecidableEq

/-- One column assignment string of `sqlForPartialUpdate`, for key `colName`
at zero-based index `idx`: the body of the arrow function passed to
`keys.map`, which is the template
`"${jsToSql[colName] || colName}"=$${idx + 1}` from `helpers/sql.js`. -/
def colAssign (jsToSql : List (String × String)) (colName : String) (idx : Nat) : String :=
  "\"" ++ jsOrString (jsLookup jsToSql colName) colName ++ "\"=$" ++ toString (idx + 1)

/-- The `keys.map((colName, idx) => ...)` call of `sqlForPartialUpdate`:
builds the column assignment of every key, carrying the zero-based index. -/
def buildCols (jsToSql : List (String × String)) : List String → Nat → List String
  | [], _ => []
  | k :: ks, idx => colAssign jsToSql k idx :: buildCols jsToSql ks (idx + 1)

/-- `sqlForPartialUpdate` from `helpers/sql.js`.  `dataToUpdate` is a
JavaScript object modelled as a list of key-value pairs in insertion order
(so `Object.keys` / `Object.values` are the two projections); `jsToSql` maps
JavaScript field names to database column names.  Throws `BadRequestError`
("No data") when `dataToUpdate` has no keys. -/
def sqlForPartialUpdate {V : Type} (dataToUpdate : List (String × V))
    (jsToSql : List (String × String)) : Except JError (SqlUpdateResult V) :=
  let keys := dataToUpdate.map Prod.fst
  if keys.length = 0 then .error (.badRequest (.str "No data"))
  else
    .ok { setCols := String.intercalate ", " (buildCols jsToSql keys 0)
        , values := dataToUpdate.map Prod.snd }

/-- The column name claim C1 prescribes for key `k`: `jsToSql[k]` whenever the
mapping is present — with no exception for a falsy mapped value — and `k`
itself otherwise.  Written from the claim's words, to be compared with the
code's `jsOrString (jsLookup jsToSql k) k`. -/
def claimedColName (jsToSql : List (String × String)) (k : String) : String :=
  match jsLookup jsToSql k with
  | some c => c
  | none => k

/-- The full `setCols` string that claim C1 prescribes, from the claim's
words: the strings `"ci"=$i` for `i = 1..n` joined by `", "`. -/
def claimedSetCols (keys : List String) (jsToSql : List (String × String)) : String :=
  String.intercalate ", "
    ((List.range keys.length).map (fun i =>
      "\"" ++ claimedColName jsToSql (keys.getD i "") ++ "\"=$" ++ toString (i + 1)))

/-- The column name actually produced for key `k`, phrased as the amended
claim words it: the mapped name when the mapping is present and non-empty,
and the key itself when the mapping is absent or maps to the empty string. -/
def amendedColName (jsToSql : List (String × String)) (k : String) : String :=
  match jsLookup jsToSql k with
  | some c => if c = "" then k else c
  | none => k

/-! ## JavaScript number coercion

`+s` on a string (`ToNumber`), as used by `+req.params.id` and
`+q.minSalary`.  Either a rational number or `NaN`. -/

/-- A JavaScript number as observed in a JSON response: a (rational) numeric
value or `NaN`. -/
inductive JsNum where
  | num (q : Rat)
  | nan
deriving DecidableEq

/-- ASCII whitespace, for the trimming `ToNumber` performs. -/
def isSpaceChar (c : Char) : Bool :=
  c = ' ' ∨ c = '\t' ∨ c = '\n' ∨ c = '\r'

/-- Strip leading and trailing whitespace from a character list. -/
def trimChars (cs : List Char) : List Char :=
  (((cs.dropWhile isSpaceChar).reverse).dropWhile isSpaceChar).reverse

/-- The numeric value of a digit list (most significant first); `0` for the
empty list. -/
def decDigitsVal (cs : List Char) : Nat :=
  cs.foldl (fun a c => a * 10 + (c.toNat - 48)) 0

/-- Modelled JavaScript `ToNumber` (unary `+`) on a string, covering the
decimal literals relevant here: surrounding whitespace is trimmed, the empty
string is `0`, an optional sign followed by decimal digits with an optional
fractional part is its value, and anything else is `NaN` (hexadecimal and
exponent forms, which no caller in this repository produces, are out of
scope of the model). -/
def jsStringToNumber (s : String) : JsNum :=
  let t := trimChars s.data
  match t with
  | [] => .num 0
  | c0 :: rest =>
    let sign : Rat := if c0 = '-' then -1 else 1
    let u := if c0 = '-' ∨ c0 = '+' then rest else c0 :: rest
    let ip := u.takeWhile Char.isDigit
    match u.dropWhile Char.isDigit with
    | [] =>
      if ip = [] then .nan else .num (sign * (decDigitsVal ip : Rat))
    | c :: rest2 =>
      if c = '.' then
        let fp := rest2.takeWhile Char.isDigit
        if rest2.dropWhile Char.isDigit = [] ∧ (ip ≠ [] ∨ fp ≠ []) then
          .num (sign * ((decDigitsVal ip : Rat) +
            (decDigitsVal fp : Rat) / ((10 : Rat) ^ fp.length)))
        else .nan
      else .nan

/-- A JSON value appearing in a response field: a number (possibly `NaN`) or
a string.  Distinguishes echoing a numeric coercion from echoing the raw
string. -/
inductive JsonVal where
  | jnum (n : JsNum)
  | jstr (s : String)
deriving DecidableEq

/-! ## Data rows (section 3 of the spec) -/

/-- A job row: `Job(id, title, salary, equity, companyHandle)`. -/
structure Job where
  id : Nat
  title : String
  salary : Nat
  equity : String
  companyHandle : String
deriving DecidableEq

/-- A company row: `Company(handle, name, description, numEmployees, logoUrl)`. -/
structure Company where
  handle : String
  name : String
  description : String
  numEmployees : Nat
  logoUrl : String
deriving DecidableEq

/-- A user as returned by `User.register`: the public user fields. -/
structure UserOut where
  username : String
  firstName : String
  lastName : String
  email : String
  isAdmin : Bool
deriving DecidableEq

/-! ## Responses and the centralized error handler (`app.js`) -/

/-- A JSON response body.  `errObj` is the shape the centralized handler
builds (`{ error: { message, status } }`); `errDirect` is the shape
`middleware/ensureAdmin.js` sends on its own (`{ error: <string> }`); the
rest are the success bodies of the embedded routes. -/
inductive Body where
  | errObj (message : ErrMsg) (status : Nat)
  | errDirect (s : String)
  | jobBody (j : Job)
  | jobsBody (js : List Job)
  | companyBody (c : Company)
  | deletedBody (v : JsonVal)
  | userTokenBody (u : UserOut) (t : String)
  | tokenBody (t : String)
deriving DecidableEq

/-- An HTTP response: status code and JSON body. -/
structure HttpResponse where
  status : Nat
  body : Body
deriving DecidableEq

/-- The generic error handler of `app.js` (the final `app.use`): reads
`err.status || 500` and `err.message` and sends
`res.status(status).json({ error: { message, status } })`. -/
def errorHandler (err : JError) : HttpResponse :=
  { status := jsOrNat err.status 500
  , body := .errObj err.message (jsOrNat err.status 500) }

/-- Whether a body has the shape the centralized handler builds. -/
def bodyIsCentralShape : Body → Bool
  | .errObj _ _ => true
  | _ => false

/-! ## Route handler steps

A route handler either sends a response itself (`res.status(..).json(..)`)
or passes an error to `next(err)`, which hands it to the centralized
handler. -/

/-- The observable outcome of a route handler body. -/
inductive HStep where
  | respond (status : Nat) (body : Body)
  | nextErr (e : JError)
deriving DecidableEq

/-- Finishing a handler step in the Express pipeline of `app.js`: a direct
response stands, an error passed to `next` is rendered by `errorHandler`. -/
def runHandler : HStep → HttpResponse
  | .respond st b => { status := st, body := b }
  | .nextErr e => errorHandler e

/-- The result of `jsonschema.validate(...)` as the routes read it:
`validator.valid` and the list `validator.errors.map(e => e.stack)`. -/
structure Validation where
  valid : Bool
  errs : List String
deriving DecidableEq

/-! ## Authentication state and `ensureAdmin` (`middleware/ensureAdmin.js`) -/

/-- The authenticated user placed on the request by `authenticateJWT`. -/
structure AuthUser where
  username : String
  isAdmin : Bool
deriving DecidableEq

/-- The part of an Express request the middleware reads: `req.user`,
absent when no valid token was presented. -/
structure Request where
  user : Option AuthUser
deriving DecidableEq

/-- A middleware outcome: a direct response, or `next()`. -/
inductive MwStep where
  | respond (r : HttpResponse)
  | next
deriving DecidableEq

/-- The response `middleware/ensureAdmin.js` sends on its own:
`res.status(403).json({ error: "You must be an admin to perform this
action." })`. -/
def adminRefusal : HttpResponse :=
  { status := 403
    body := .errDirect "You must be an admin to perform this action." }

/-- `ensureAdmin` from `middleware/ensureAdmin.js`: when `!req.user ||
!req.user.isAdmin` it sends `adminRefusal` itself (without calling `next`);
otherwise it calls `next()`. -/
def ensureAdmin (req : Request) : MwStep :=
  match req.user with
  | none => .respond adminRefusal
  | some u =>
    if u.isAdmin then .next
    else .respond adminRefusal

/-- The outcome of a guarded endpoint: the response, whether the route
handler ran, and whether the handler's model operation ran. -/
structure GuardedOutcome where
  response : HttpResponse
  handlerInvoked : Bool
  opInvoked : Bool
deriving DecidableEq

/-- An admin-guarded endpoint as mounted in the routers
(`router.post("/", ensureAdmin, handler)` and the PATCH/DELETE analogues):
`ensureAdmin` runs first; only on `next()` does the route handler run, whose
step is finished through the pipeline.  The handler reports its step and
whether it invoked its model operation. -/
def runGuarded (handler : Request → HStep × Bool) (req : Request) : GuardedOutcome :=
  match ensureAdmin req with
  | .respond r => { response := r, handlerInvoked := false, opInvoked := false }
  | .next =>
    { response := runHandler (handler req).1
      handlerInvoked := true
      opInvoked := (handler req).2 }

/-! ## Route handlers

Each handler is embedded over the outcome of its schema validation (the
`jsonschema.validate` call is the off-the-shelf library the spec excludes)
and over its model operation as an explicit function, so that whether the
operation ran is observable (the `Bool`/`Option` component of the result). -/

/-- POST `/jobs` (`routes/jobs.js`): validates against `jobNewSchema`,
throwing `BadRequestError(errs)` on failure; otherwise awaits `Job.create`
and returns 201 with `{ job }`. -/
def postJob (v : Validation) (create : Unit → Except JError Job) : HStep × Bool :=
  if v.valid = false then (.nextErr (.badRequest (.list v.errs)), false)
  else
    match create () with
    | .ok job => (.respond 201 (.jobBody job), true)
    | .error e => (.nextErr e, true)

/-- POST `/companies` (`routes/companies.js`): validates against
`companyNewSchema`, throwing `BadRequestError(errs)` on failure; otherwise
awaits `Company.create` and returns 201 with `{ company }`. -/
def postCompany (v : Validation) (create : Unit → Except JError Company) : HStep × Bool :=
  if v.valid = false then (.nextErr (.badRequest (.list v.errs)), false)
  else
    match create () with
    | .ok company => (.respond 201 (.companyBody company), true)
    | .error e => (.nextErr e, true)

/-- POST `/users` (`routes/users.js`): validates against `userNewSchema`,
throwing `BadRequestError(errs)` on failure; otherwise awaits
`User.register`, builds a token with `createToken` (a helper outside the
model, passed as a function) and returns 201 with `{ user, token }`. -/
def postUser (v : Validation) (reg : Unit → Except JError UserOut)
    (createToken : UserOut → String) : HStep × Bool :=
  if v.valid = false then (.nextErr (.badRequest (.list v.errs)), false)
  else
    match reg () with
    | .ok u => (.respond 201 (.userTokenBody u (createToken u)), true)
    | .error e => (.nextErr e, true)

/-- The raw query string of GET `/jobs` as Express delivers it: each
parameter a string when present. -/
structure RawJobQuery where
  minSalary : Option String
  hasEquity : Option String
  title : Option String
deriving DecidableEq

/-- The filter object GET `/jobs` passes to `Job.findAll` after its
conversions. -/
structure JobFilter where
  minSalary : Option JsNum
  hasEquity : Bool
  title : Option String
deriving DecidableEq

/-- The query conversion at the top of GET `/jobs` (`routes/jobs.js`):
`if (q.minSalary !== undefined) q.minSalary = +q.minSalary;` and
`q.hasEquity = q.hasEquity === "true";`. -/
def convertJobQuery (q : RawJobQuery) : JobFilter :=
  { minSalary := q.minSalary.map jsStringToNumber
    hasEquity := decide (q.hasEquity = some "true")
    title := q.title }

/-- GET `/jobs` (`routes/jobs.js`): converts the query, validates the
converted object against `jobSearchSchema` (throwing `BadRequestError` on
failure), then awaits `Job.findAll(q)` and returns `{ jobs }`.  The second
component is the filter passed to `Job.findAll` (`none` when it never ran). -/
def getJobs (q : RawJobQuery) (v : JobFilter → Validation)
    (findAll : JobFilter → Except JError (List Job)) : HStep × Option JobFilter :=
  let f := convertJobQuery q
  if (v f).valid = false then (.nextErr (.badRequest (.list (v f).errs)), none)
  else
    match findAll f with
    | .ok jobs => (.respond 200 (.jobsBody jobs), some f)
    | .error e => (.nextErr e, some f)

/-- DELETE `/jobs/:id` (`routes/jobs.js`): awaits `Job.remove(req.params.id)`
and returns `res.json({ deleted: +req.params.id })` — the numeric coercion of
the id path parameter, not the original string. -/
def deleteJob (id : String) (remove : Unit → Except JError Unit) : HStep × Bool :=
  match remove () with
  | .ok _ => (.respond 200 (.deletedBody (.jnum (jsStringToNumber id))), true)
  | .error e => (.nextErr e, true)

/-! ## POST `/auth/register` (`routes/auth.js`) -/

/-- A request body accepted by `userRegisterSchema`: the required fields plus
a possible client-supplied `isAdmin` property. -/
structure RegisterBody where
  username : String
  password : String
  firstName : String
  lastName : String
  email : String
  isAdmin : Option Bool
deriving DecidableEq

/-- The argument `User.register` receives. -/
structure RegisterData where
  username : String
  password : String
  firstName : String
  lastName : String
  email : String
  isAdmin : Bool
deriving DecidableEq

/-- The object literal `{ ...req.body, isAdmin: false }` built by POST
`/auth/register`: the spread copies the body's fields and the later
`isAdmin: false` entry overwrites any client-supplied `isAdmin`. -/
def registerArg (b : RegisterBody) : RegisterData :=
  { username := b.username
    password := b.password
    firstName := b.firstName
    lastName := b.lastName
    email := b.email
    isAdmin := false }

/-- POST `/auth/register` (`routes/auth.js`): validates against
`userRegisterSchema` (throwing `BadRequestError` on failure), awaits
`User.register({ ...req.body, isAdmin: false })`, builds a token and returns
201 with `{ token }`.  The second component is the argument passed to
`User.register` (`none` when it never ran). -/
def registerHandler (v : Validation) (b : RegisterBody)
    (reg : RegisterData → Except JError UserOut)
    (createToken : UserOut → String) : HStep × Option RegisterData :=
  if v.valid = false then (.nextErr (.badRequest (.list v.errs)), none)
  else
    match reg (registerArg b) with
    | .ok u => (.respond 201 (.tokenBody (createToken u)), some (registerArg b))
    | .error e => (.nextErr e, some (registerArg b))

/-! ## The app pipeline (`app.js`) -/

/-- The routing structure of `app.js`: a request matched by a mounted route
runs that handler's step; a request matching no registered route falls into
the catch-all `app.use`, which passes `new NotFoundError()` to the
centralized handler. -/
def appDispatch (matched : Option HStep) : HttpResponse :=
  match matched with
  | some s => runHandler s
  | none => runHandler (.nextErr .notFound)

/-! ## Concrete sample values used by witnesses -/

/-- A request with no authenticated user. -/
def anonReq : Request := { user := none }

/-- A request authenticated as an admin. -/
def adminReq : Request := { user := some { username := "admin", isAdmin := true } }

/-- A handler that responds 200 and reports its model operation as run. -/
def okHandler : Request → HStep × Bool := fun _ => (.respond 200 (.jobsBody []), true)

/-- A successful validation outcome. -/
def vOK : Validation := { valid := true, errs := [] }

/-- A failed validation outcome with one schema error string. -/
def vBad : Validation := { valid := false, errs := ["instance requires property title"] }

/-- A sample job row. -/
def jobX : Job :=
  { id := 1, title := "t", salary := 100, equity := "0", companyHandle := "c" }

/-- A sample company row. -/
def companyX : Company :=
  { handle := "c", name := "C Inc", description := "d", numEmployees := 3, logoUrl := "u" }

/-- A sample registration body that tries to claim admin rights. -/
def regBodyAdmin : RegisterBody :=
  { username := "u1", password := "p", firstName := "f", lastName := "l"
    email := "e@x.io", isAdmin := some true }

/-- The same registration body without the `isAdmin` property. -/
def regBodyPlain : RegisterBody :=
  { username := "u1", password := "p", firstName := "f", lastName := "l"
    email := "e@x.io", isAdmin := none }

/-! ## Shared lemmas -/

theorem buildCols_eq_range (jsToSql : List (String × String)) (ks : List String) :
    ∀ n, buildCols jsToSql ks n =
      (List.range ks.length).map (fun i => colAssign jsToSql (ks.getD i "") (n + i)) := by
  induction ks with
  | nil => intro n; rfl
  | cons k ks ih =>
    intro n
    have h : List.range (k :: ks).length = 0 :: (List.range ks.length).map Nat.succ :=
      List.range_succ_eq_map ks.length
    rw [buildCols, ih (n + 1), h]
    simp only [List.map_cons, List.map_map]
    refine congrArg₂ _ rfl ?_
    apply List.map_congr_left
    intro i _
    simp only [Function.comp_apply, List.getD_cons_succ]
    congr 1
    omega

theorem registerHandler_arg (v : Validation) (b : RegisterBody)
    (reg : RegisterData → Except JError UserOut) (tk : UserOut → String) :
    (registerHandler v b reg tk).2 = none
    ∨ (registerHandler v b reg tk).2 = some (registerArg b) := by
  unfold registerHandler
  by_cases hv : v.valid = false
  · simp [hv]
  · simp only [hv, if_false]
    cases reg (registerArg b) <;> simp

theorem getJobs_filter_arg (q : RawJobQuery) (v : JobFilter → Validation)
    (findAll : JobFilter → Except JError (List Job)) :
    (getJobs q v findAll).2 = none
    ∨ (getJobs q v findAll).2 = some (convertJobQuery q) := by
  unfold getJobs
  by_cases hv : (v (convertJobQuery q)).valid = false
  · simp [hv]
  · simp only [hv, if_false]
    cases findAll (convertJobQuery q) <;> simp

/-! ## Claim C1 -/

/-- C1 counterexample: the claim's column rule ("jsToSql[ki] when that mapping
is present and otherwise ki itself") fails when a present mapping is the empty
string, which JavaScript `||` treats as falsy: on
`sqlForPartialUpdate({a: 1}, {a: ""})` the code produces `"a"=$1`, while the
claim prescribes `""=$1`. -/
theorem sqlForPartialUpdate_claim_cx :
    sqlForPartialUpdate [("a", (1 : Nat))] [("a", "")] =
      Except.ok { setCols := "\"a\"=$1", values := [1] }
    ∧ claimedSetCols ["a"] [("a", "")] = "\"\"=$1"
    ∧ ("\"a\"=$1" : String) ≠ "\"\"=$1" :=
  ⟨rfl, rfl, by decide⟩

/-- C1 (amended): for every non-empty `dataToUpdate` with keys `k1..kn` in
insertion order and every `jsToSql`, `sqlForPartialUpdate` returns an object
whose `setCols` is the strings `"ci"=$i` for `i = 1..n` joined by `", "`,
where `ci` is `jsToSql[ki]` when that mapping is present and non-empty and
otherwise (absent mapping, or mapping to the empty string) `ki` itself, and
whose `values` is the list of the values of `dataToUpdate` in the same key
order, of length `n` with the i-th value corresponding to placeholder `$i`. -/
theorem sqlForPartialUpdate_correct {V : Type} (dataToUpdate : List (String × V))
    (jsToSql : List (String × String)) (h : dataToUpdate ≠ []) :
    ∃ r, sqlForPartialUpdate dataToUpdate jsToSql = Except.ok r
      ∧ r.values = dataToUpdate.map Prod.snd
      ∧ r.values.length = dataToUpdate.length
      ∧ r.setCols = String.intercalate ", "
          ((List.range dataToUpdate.length).map (fun i =>
            "\"" ++ amendedColName jsToSql ((dataToUpdate.map Prod.fst).getD i "")
              ++ "\"=$" ++ toString (i + 1))) := by
  refine ⟨{ setCols := String.intercalate ", "
              (buildCols jsToSql (dataToUpdate.map Prod.fst) 0)
          , values := dataToUpdate.map Prod.snd }, ?_, rfl, by simp, ?_⟩
  · have hc : ¬((dataToUpdate.map Prod.fst).length = 0) := by
      simpa using h
    simp only [sqlForPartialUpdate]
    rw [if_neg hc]
  · rw [buildCols_eq_range]
    simp only [List.length_map]
    refine congrArg _ (List.map_congr_left ?_)
    intro i _
    simp [colAssign, jsOrString, amendedColName]

/-- Witness for C1 (amended) at the repo's own test input
`sqlForPartialUpdate({firstName: "John", age: 30}, {firstName: "first_name"})`,
together with its concrete evaluation. -/
theorem sqlForPartialUpdate_correct_witness :
    (∃ r, sqlForPartialUpdate [("firstName", "John"), ("age", "30")]
            [("firstName", "first_name"), ("age", "age")] = Except.ok r
      ∧ r.values = [("firstName", "John"), ("age", "30")].map Prod.snd
      ∧ r.values.length = ([("firstName", "John"), ("age", "30")] : List (String × String)).length
      ∧ r.setCols = String.intercalate ", "
          ((List.range ([("firstName", "John"), ("age", "30")] : List (String × String)).length).map (fun i =>
            "\"" ++ amendedColName [("firstName", "first_name"), ("age", "age")]
                (([("firstName", "John"), ("age", "30")].map Prod.fst).getD i "")
              ++ "\"=$" ++ toString (i + 1))))
    ∧ sqlForPartialUpdate [("firstName", "John"), ("age", "30")]
        [("firstName", "first_name"), ("age", "age")] =
      Except.ok { setCols := "\"first_name\"=$1, \"age\"=$2", values := ["John", "30"] } :=
  ⟨sqlForPartialUpdate_correct [("firstName", "John"), ("age", "30")]
    [("firstName", "first_name"), ("age", "age")] (by decide), rfl⟩

/-! ## Claim C2 -/

/-- C2: `sqlForPartialUpdate` throws `BadRequestError` exactly when
`dataToUpdate` has no keys; with at least one key it returns normally,
whatever `jsToSql` is. -/
theorem sqlForPartialUpdate_throws_iff {V : Type} (dataToUpdate : List (String × V))
    (jsToSql : List (String × String)) :
    (dataToUpdate = [] →
      sqlForPartialUpdate dataToUpdate jsToSql = Except.error (.badRequest (.str "No data")))
    ∧ (dataToUpdate ≠ [] →
      ∃ r, sqlForPartialUpdate dataToUpdate jsToSql = Except.ok r) := by
  constructor
  · intro h
    subst h
    rfl
  · intro h
    refine ⟨{ setCols := String.intercalate ", "
                (buildCols jsToSql (dataToUpdate.map Prod.fst) 0)
            , values := dataToUpdate.map Prod.snd }, ?_⟩
    have hc : ¬((dataToUpdate.map Prod.fst).length = 0) := by
      simpa using h
    simp only [sqlForPartialUpdate]
    rw [if_neg hc]

/-- Witness for C2: the empty object throws `BadRequestError "No data"`, the
one-key object `{firstName: "John"}` returns normally. -/
theorem sqlForPartialUpdate_throws_iff_witness :
    sqlForPartialUpdate ([] : List (String × String)) [] =
      Except.error (.badRequest (.str "No data"))
    ∧ ∃ r, sqlForPartialUpdate [("firstName", "John")] [("firstName", "first_name")] =
      Except.ok r :=
  ⟨(sqlForPartialUpdate_throws_iff ([] : List (String × String)) []).1 rfl,
   (sqlForPartialUpdate_throws_iff [("firstName", "John")]
      [("firstName", "first_name")]).2 (by decide)⟩

/-! ## Claim C3 -/

/-- C3 counterexample: not every error response goes through the centralized
handler.  `ensureAdmin` (`middleware/ensureAdmin.js`) on a request with no
authenticated user sends a 403 error response body directly — and its body
shape (a bare string under `error`) is not the message/status object shape
the centralized handler builds, so no centralized-handler output equals it. -/
theorem centralized_errors_cx :
    ensureAdmin anonReq = .respond adminRefusal
    ∧ bodyIsCentralShape adminRefusal.body = false
    ∧ adminRefusal.status = 403 :=
  ⟨rfl, rfl, rfl⟩

/-- C3 (amended): every error raised in a route handler is passed to `next`
and emitted by the centralized handler, whose bodies all have the
message/status object shape; the route handlers respond directly only with
success statuses (200/201).  The one exception is the `ensureAdmin`
middleware, which sends its 403 error body directly. -/
theorem centralized_errors_amended :
    (∀ e : JError, bodyIsCentralShape (errorHandler e).body = true)
    ∧ (∀ (v : Validation) (create : Unit → Except JError Job) (st : Nat) (b : Body),
        (postJob v create).1 = .respond st b → st = 201)
    ∧ (∀ (v : Validation) (create : Unit → Except JError Company) (st : Nat) (b : Body),
        (postCompany v create).1 = .respond st b → st = 201)
    ∧ (∀ (v : Validation) (reg : Unit → Except JError UserOut)
        (tk : UserOut → String) (st : Nat) (b : Body),
        (postUser v reg tk).1 = .respond st b → st = 201)
    ∧ (∀ (q : RawJobQuery) (v : JobFilter → Validation)
        (findAll : JobFilter → Except JError (List Job)) (st : Nat) (b : Body),
        (getJobs q v findAll).1 = .respond st b → st = 200)
    ∧ (∀ (id : String) (rm : Unit → Except JError Unit) (st : Nat) (b : Body),
        (deleteJob id rm).1 = .respond st b → st = 200)
    ∧ (∀ (v : Validation) (rb : RegisterBody)
        (reg : RegisterData → Except JError UserOut)
        (tk : UserOut → String) (st : Nat) (b : Body),
        (registerHandler v rb reg tk).1 = .respond st b → st = 201)
    ∧ ensureAdmin anonReq = .respond adminRefusal := by
  refine ⟨fun e => rfl, ?_, ?_, ?_, ?_, ?_, ?_, rfl⟩
  · intro v create st b h
    cases hv : v.valid <;> cases hc : create () <;> simp [postJob, hv, hc] at h
    exact h.1.symm
  · intro v create st b h
    cases hv : v.valid <;> cases hc : create () <;> simp [postCompany, hv, hc] at h
    exact h.1.symm
  · intro v reg tk st b h
    cases hv : v.valid <;> cases hc : reg () <;> simp [postUser, hv, hc] at h
    exact h.1.symm
  · intro q v findAll st b h
    cases hv : (v (convertJobQuery q)).valid <;>
      cases hc : findAll (convertJobQuery q) <;> simp [getJobs, hv, hc] at h
    exact h.1.symm
  · intro id rm st b h
    cases hc : rm () <;> simp [deleteJob, hc] at h
    exact h.1.symm
  · intro v rb reg tk st b h
    cases hv : v.valid <;> cases hc : reg (registerArg rb) <;>
      simp [registerHandler, hv, hc] at h
    exact h.1.symm

/-- Witness for C3 (amended): the POST `/jobs` conjunct applied at a
successful creation, whose direct response indeed carries status 201. -/
theorem centralized_errors_amended_witness :
    (201 : Nat) = 201 ∧ ensureAdmin anonReq = .respond adminRefusal :=
  ⟨centralized_errors_amended.2.1 vOK (fun _ => Except.ok jobX) 201 (.jobBody jobX) rfl,
   centralized_errors_amended.2.2.2.2.2.2.2⟩

/-! ## Claim C4 -/

/-- C4 counterexample: for an error with no status of its own the centralized
handler does return 500, but its body carries the internal error's own
message (`const message = err.message`), not a generic message: two uncaught
errors that differ only in their internal message produce different
responses, and the internal text appears verbatim in the body. -/
theorem uncaught_error_cx :
    errorHandler (.generic "boom") =
      { status := 500, body := .errObj (.str "boom") 500 }
    ∧ errorHandler (.generic "boom") ≠ errorHandler (.generic "quiet") :=
  ⟨rfl, by decide⟩

/-- C4 (amended): for every error reaching the centralized handler with no
status of its own, the response has HTTP status 500 and its body carries the
error's own `message` (the handler exposes `err.message` rather than a
generic message). -/
theorem uncaught_error_500 (e : JError) (h : e.status = none) :
    (errorHandler e).status = 500
    ∧ (errorHandler e).body = .errObj e.message 500 := by
  simp [errorHandler, jsOrNat, h]

/-- Witness for C4 (amended) at the uncaught error with message "boom". -/
theorem uncaught_error_500_witness :
    (errorHandler (.generic "boom")).status = 500
    ∧ (errorHandler (.generic "boom")).body = .errObj (.str "boom") 500 :=
  uncaught_error_500 (.generic "boom") rfl

/-! ## Claim C5 -/

/-- C5: on every admin-guarded endpoint, a request whose user is absent or
not an admin gets an authorization-failure response with status 401 or 403
(here: 403) and the guarded route handler — hence the model operation — is
never invoked; a request whose user is an admin is passed by `ensureAdmin`
to the route handler, whose outcome stands. -/
theorem ensureAdmin_guards (handler : Request → HStep × Bool) (req : Request) :
    ((req.user = none ∨ ∃ u, req.user = some u ∧ u.isAdmin = false) →
      (runGuarded handler req).handlerInvoked = false
      ∧ (runGuarded handler req).opInvoked = false
      ∧ ((runGuarded handler req).response.status = 401
         ∨ (runGuarded handler req).response.status = 403))
    ∧ ((∃ u, req.user = some u ∧ u.isAdmin = true) →
      runGuarded handler req =
        { response := runHandler (handler req).1
          handlerInvoked := true
          opInvoked := (handler req).2 }) := by
  constructor
  · rintro (h | ⟨u, hu, hadm⟩)
    · simp [runGuarded, ensureAdmin, h, adminRefusal]
    · simp [runGuarded, ensureAdmin, hu, hadm, adminRefusal]
  · rintro ⟨u, hu, hadm⟩
    simp [runGuarded, ensureAdmin, hu, hadm]

/-- Witness for C5: an anonymous request is refused with 403 and no handler
runs; an admin request hands control to the handler. -/
theorem ensureAdmin_guards_witness :
    ((runGuarded okHandler anonReq).handlerInvoked = false
      ∧ (runGuarded okHandler anonReq).opInvoked = false
      ∧ ((runGuarded okHandler anonReq).response.status = 401
         ∨ (runGuarded okHandler anonReq).response.status = 403))
    ∧ runGuarded okHandler adminReq =
        { response := runHandler (okHandler adminReq).1
          handlerInvoked := true
          opInvoked := (okHandler adminReq).2 } :=
  ⟨(ensureAdmin_guards okHandler anonReq).1 (Or.inl rfl),
   (ensureAdmin_guards okHandler adminReq).2
     ⟨{ username := "admin", isAdmin := true }, rfl, rfl⟩⟩

/-! ## Claim C6 -/

/-- C6: at the validated endpoints, a request body (or converted query
object) failing schema validation yields — through the centralized handler —
HTTP status 400 with the list of schema error messages as the error message,
and the model operation does not run. -/
theorem validation_failure_400 (v : Validation)
    (create : Unit → Except JError Job) (createC : Unit → Except JError Company)
    (h : v.valid = false) :
    (postJob v create).2 = false
    ∧ runHandler (postJob v create).1 =
        { status := 400, body := .errObj (.list v.errs) 400 }
    ∧ (postCompany v createC).2 = false
    ∧ runHandler (postCompany v createC).1 =
        { status := 400, body := .errObj (.list v.errs) 400 }
    ∧ (∀ (q : RawJobQuery) (vq : JobFilter → Validation)
        (findAll : JobFilter → Except JError (List Job)),
        (vq (convertJobQuery q)).valid = false →
        (getJobs q vq findAll).2 = none
        ∧ runHandler (getJobs q vq findAll).1 =
            { status := 400
              body := .errObj (.list (vq (convertJobQuery q)).errs) 400 }) := by
  refine ⟨?_, ?_, ?_, ?_, ?_⟩
  · simp [postJob, h]
  · simp [postJob, h, runHandler, errorHandler, JError.status, JError.message, jsOrNat]
  · simp [postCompany, h]
  · simp [postCompany, h, runHandler, errorHandler, JError.status, JError.message, jsOrNat]
  · intro q vq findAll hq
    constructor
    · simp [getJobs, hq]
    · simp [getJobs, hq, runHandler, errorHandler, JError.status, JError.message, jsOrNat]

/-- Witness for C6 at a concrete failed validation for POST `/jobs`. -/
theorem validation_failure_400_witness :
    (postJob vBad (fun _ => Except.ok jobX)).2 = false
    ∧ runHandler (postJob vBad (fun _ => Except.ok jobX)).1 =
        { status := 400, body := .errObj (.list vBad.errs) 400 } :=
  ⟨(validation_failure_400 vBad (fun _ => Except.ok jobX)
      (fun _ => Except.ok companyX) rfl).1,
   (validation_failure_400 vBad (fun _ => Except.ok jobX)
      (fun _ => Except.ok companyX) rfl).2.1⟩

/-! ## Claim C7 -/

/-- C7: a request matching no registered route gets 404 (a `NotFoundError`
rendered by the centralized handler); the centralized handler emits only the
conventional error codes 400/401/404/500 for the modelled errors; and each
creation endpoint (POST `/jobs`, POST `/companies`, POST `/users`,
POST `/auth/register`) responds 201 on success. -/
theorem conventional_statuses :
    appDispatch none = { status := 404, body := .errObj (.str "Not Found") 404 }
    ∧ (∀ e : JError,
        (errorHandler e).status = 400 ∨ (errorHandler e).status = 401
        ∨ (errorHandler e).status = 404 ∨ (errorHandler e).status = 500)
    ∧ (∀ (v : Validation) (create : Unit → Except JError Job) (j : Job),
        v.valid = true → create () = .ok j →
        (postJob v create).1 = .respond 201 (.jobBody j))
    ∧ (∀ (v : Validation) (create : Unit → Except JError Company) (c : Company),
        v.valid = true → create () = .ok c →
        (postCompany v create).1 = .respond 201 (.companyBody c))
    ∧ (∀ (v : Validation) (reg : Unit → Except JError UserOut)
        (tk : UserOut → String) (u : UserOut),
        v.valid = true → reg () = .ok u →
        (postUser v reg tk).1 = .respond 201 (.userTokenBody u (tk u)))
    ∧ (∀ (v : Validation) (rb : RegisterBody)
        (reg : RegisterData → Except JError UserOut) (tk : UserOut → String) (u : UserOut),
        v.valid = true → reg (registerArg rb) = .ok u →
        (registerHandler v rb reg tk).1 = .respond 201 (.tokenBody (tk u))) := by
  refine ⟨rfl, ?_, ?_, ?_, ?_, ?_⟩
  · intro e
    cases e <;> simp [errorHandler, JError.status, jsOrNat]
  · intro v create j hv hc
    simp [postJob, hv, hc]
  · intro v create c hv hc
    simp [postCompany, hv, hc]
  · intro v reg tk u hv hc
    simp [postUser, hv, hc]
  · intro v rb reg tk u hv hc
    simp [registerHandler, hv, hc]

/-- Witness for C7: the 201 conjunct for POST `/jobs` at a successful
creation, together with the closed 404 catch-all fact. -/
theorem conventional_statuses_witness :
    (postJob vOK (fun _ => Except.ok jobX)).1 = .respond 201 (.jobBody jobX)
    ∧ appDispatch none = { status := 404, body := .errObj (.str "Not Found") 404 } :=
  ⟨conventional_statuses.2.2.1 vOK (fun _ => Except.ok jobX) jobX rfl rfl,
   conventional_statuses.1⟩

/-! ## Claim C8 -/

/-- C8: POST `/auth/register` always registers the user with `isAdmin =
false`: the argument built for `User.register` has admin flag `false` for
every request body, two bodies differing only in a supplied `isAdmin`
produce the same registration argument, and whenever the handler invokes
`User.register`, the argument it passes has admin flag `false`. -/
theorem register_forces_isAdmin_false (b b1 b2 : RegisterBody) (v : Validation)
    (reg : RegisterData → Except JError UserOut) (tk : UserOut → String)
    (d : RegisterData) :
    (registerArg b).isAdmin = false
    ∧ (b1.username = b2.username → b1.password = b2.password →
       b1.firstName = b2.firstName → b1.lastName = b2.lastName →
       b1.email = b2.email → registerArg b1 = registerArg b2)
    ∧ ((registerHandler v b reg tk).2 = some d → d.isAdmin = false) := by
  refine ⟨rfl, ?_, ?_⟩
  · intro h1 h2 h3 h4 h5
    simp [registerArg, h1, h2, h3, h4, h5]
  · intro h
    rcases registerHandler_arg v b reg tk with h0 | h0
    · rw [h0] at h
      exact Option.noConfusion h
    · rw [h0] at h
      obtain rfl := Option.some.inj h
      rfl

/-- Witness for C8: the two concrete bodies that differ only in the
client-supplied `isAdmin` register the same user with `isAdmin = false`,
and a run of the handler passes that argument. -/
theorem register_forces_isAdmin_false_witness :
    registerArg regBodyAdmin = registerArg regBodyPlain
    ∧ (registerArg regBodyAdmin).isAdmin = false
    ∧ (registerHandler vOK regBodyAdmin
        (fun d => Except.ok { username := d.username, firstName := d.firstName
                            , lastName := d.lastName, email := d.email
                            , isAdmin := d.isAdmin })
        (fun _ => "tok")).2 = some (registerArg regBodyAdmin) :=
  ⟨(register_forces_isAdmin_false regBodyAdmin regBodyAdmin regBodyPlain vOK
      (fun _ => Except.ok { username := "u1", firstName := "f", lastName := "l"
                          , email := "e@x.io", isAdmin := false })
      (fun _ => "tok") (registerArg regBodyAdmin)).2.1 rfl rfl rfl rfl rfl,
   (register_forces_isAdmin_false regBodyAdmin regBodyAdmin regBodyPlain vOK
      (fun _ => Except.ok { username := "u1", firstName := "f", lastName := "l"
                          , email := "e@x.io", isAdmin := false })
      (fun _ => "tok") (registerArg regBodyAdmin)).1,
   rfl⟩

/-! ## Claim C9 -/

/-- C9: whenever GET `/jobs` passes a filter object to `Job.findAll`, its
`hasEquity` field is the boolean that is `true` exactly when the raw
`hasEquity` query parameter is the string "true"; any other raw value,
including an absent parameter, gives `false`. -/
theorem getJobs_hasEquity (q : RawJobQuery) (v : JobFilter → Validation)
    (findAll : JobFilter → Except JError (List Job)) (f : JobFilter)
    (h : (getJobs q v findAll).2 = some f) :
    f.hasEquity = true ↔ q.hasEquity = some "true" := by
  rcases getJobs_filter_arg q v findAll with h0 | h0
  · rw [h0] at h
    exact Option.noConfusion h
  · rw [h0] at h
    obtain rfl := Option.some.inj h
    simp [convertJobQuery]

/-- Witness for C9 at the raw query `?hasEquity=true` with passing
validation, where the filter passed to `Job.findAll` has `hasEquity = true`. -/
theorem getJobs_hasEquity_witness :
    ((convertJobQuery { minSalary := none, hasEquity := some "true", title := none }).hasEquity = true
      ↔ ({ minSalary := none, hasEquity := some "true", title := none } : RawJobQuery).hasEquity = some "true")
    ∧ (getJobs { minSalary := none, hasEquity := some "true", title := none }
        (fun _ => vOK) (fun _ => Except.ok [])).2 =
      some (convertJobQuery { minSalary := none, hasEquity := some "true", title := none }) :=
  ⟨getJobs_hasEquity { minSalary := none, hasEquity := some "true", title := none }
      (fun _ => vOK) (fun _ => Except.ok [])
      (convertJobQuery { minSalary := none, hasEquity := some "true", title := none }) rfl,
   rfl⟩

/-! ## Claim C10 -/

/-- C10: every successful DELETE `/jobs/:id` responds with a `deleted` field
equal to the numeric coercion of the id path parameter — a number-or-NaN
value, never the original string. -/
theorem deleteJob_numeric (id : String) (remove : Unit → Except JError Unit)
    (h : remove () = .ok ()) :
    deleteJob id remove =
      (.respond 200 (.deletedBody (.jnum (jsStringToNumber id))), true)
    ∧ (∀ s : String,
        Body.deletedBody (.jnum (jsStringToNumber id)) ≠ Body.deletedBody (.jstr s)) := by
  constructor
  · simp [deleteJob, h]
  · intro s hcontra
    simp at hcontra

/-- Witness for C10 at the non-numeric id "abc": the model accepting the
deletion, the response's `deleted` value is `NaN` — the numeric coercion —
rather than the string "abc". -/
theorem deleteJob_numeric_witness :
    deleteJob "abc" (fun _ => Except.ok ()) =
      (.respond 200 (.deletedBody (.jnum (jsStringToNumber "abc"))), true)
    ∧ jsStringToNumber "abc" = JsNum.nan :=
  ⟨(deleteJob_numeric "abc" (fun _ => Except.ok ()) rfl).1, by decide⟩

end Jobly
